import Mathlib

/-!
# Falco gRPC client: connection builder and client handle

A shallow embedding of `pkg/client/client.go`.

* Go strings are embedded as Lean strings, `[]byte` as `List UInt8`.
* A Go pointer that may be nil is an `Option`; a Go `(value, error)` result is a
  pair whose second component is `none` for a nil error.
* The package talks to three external libraries (`crypto/tls` + `crypto/x509`,
  `io/ioutil`, `google.golang.org/grpc`).  Their behaviour is not fixed here: it is
  an arbitrary `Env` of oracles, each of which may depend on every effect performed
  before the call.  Every external call is appended to a trace, which is threaded
  through the program, so that "how many dials", "was the key pair loaded" are
  statements on traces.
* The generated stub packages `pkg/api/output` and `pkg/api/version` are not among the
  sources; their constructors are oracles of `Env` as well.
* A method with a pointer receiver returns the final value of its receiver.
* `NewForConfig` takes the configuration by value: a nil `*Config` is not an input.
-/

namespace client

/-! ## Values of the external libraries -/

/-- A Go `error` value that is not nil: the name of its dynamic type, and the text
that `Error()` returns. -/
structure GoError where
  dynType : String
  msg : String
deriving DecidableEq, Repr

/-- The function `errors.New`: an error of type `*errors.errorString`. -/
def errors.New (text : String) : GoError := { dynType := "*errors.errorString", msg := text }

/-- The method `Error()` of a Go error. -/
def GoError.Error (e : GoError) : String := e.msg

/-- A `*grpc.ClientConn` that is not nil, known by its address. -/
structure ClientConn where
  ref : Nat
deriving DecidableEq, Repr

/-- A `tls.Certificate`: the certificate chain and the private key, as loaded. -/
structure Certificate where
  chain : List (List UInt8)
  key : List UInt8
deriving DecidableEq, Repr

/-- A `*x509.CertPool`: the certificates it holds (DER bytes). -/
structure CertPool where
  certs : List (List UInt8)
deriving DecidableEq, Repr

/-- The call `x509.NewCertPool()`: an empty pool. -/
def x509.NewCertPool : CertPool := { certs := [] }

/-- The fields of `tls.Config` that `newNetworkClient` sets (all others stay zero). -/
structure TLSConfig where
  ServerName : String
  Certificates : List Certificate
  RootCAs : CertPool
deriving DecidableEq, Repr

/-- A `credentials.TransportCredentials`; the only constructor used is `credentials.NewTLS`. -/
inductive TransportCredentials where
  | NewTLS (c : TLSConfig)
deriving DecidableEq, Repr

/-- A `grpc.DialOption`, as built by `grpc.WithInsecure()` or
`grpc.WithTransportCredentials(creds)`. -/
inductive DialOption where
  | WithInsecure
  | WithTransportCredentials (creds : TransportCredentials)
deriving DecidableEq, Repr

/-- Modelled from the spec: the handle type `output.ServiceClient` of the generated
package `pkg/api/output`, which is not among the sources.  A sub-client is a thin,
stateless handle; `ref` tells one instance from another. -/
structure OutputServiceClient where
  ref : Nat
deriving DecidableEq, Repr

/-- Modelled from the spec: the handle type `version.ServiceClient` of the generated
package `pkg/api/version`, which is not among the sources.  A sub-client is a thin,
stateless handle; `ref` tells one instance from another. -/
structure VersionServiceClient where
  ref : Nat
deriving DecidableEq, Repr

/-! ## Effects -/

/-- One call into an external library (or into a generated stub constructor). -/
inductive Event where
  | LoadX509KeyPair (certFile keyFile : String)
  | ReadFile (filename : String)
  | AppendCertsFromPEM (pemCerts : List UInt8)
  | Dial (target : String) (opt : DialOption)
  | ConnClose (conn : ClientConn)
  | NewOutputServiceClient (cc : Option ClientConn)
  | NewVersionServiceClient (cc : Option ClientConn)
deriving DecidableEq, Repr

/-- The external libraries and the generated stub constructors.  The first argument
of an oracle is the trace of the effects performed before the call.  The two stub
constructors belong to generated packages that are not among the sources; as the spec
has it, a call constructs a sub-client, so the oracle returns a handle and never nil. -/
structure Env where
  LoadX509KeyPair : List Event → String → String → Certificate × Option GoError
  ReadFile : List Event → String → List UInt8 × Option GoError
  AppendCertsFromPEM : List Event → CertPool → List UInt8 → CertPool × Bool
  Dial : List Event → String → DialOption → Option ClientConn × Option GoError
  ConnClose : List Event → ClientConn → Option GoError
  NewOutputServiceClient : List Event → Option ClientConn → OutputServiceClient
  NewVersionServiceClient : List Event → Option ClientConn → VersionServiceClient

/-! ## The fragment of package `fmt` that the client uses -/

/-- An operand of `fmt.Sprintf` / `fmt.Errorf`. -/
inductive Arg where
  | str (s : String)
  | uint (n : Nat)
  | err (e : GoError)
deriving DecidableEq, Repr

/-- The decimal digit `d` (for `d < 10`) as a character: `byte(48 + d)`. -/
def digitChar (d : Nat) : Char := Char.ofNat (48 + d)

/-- The digit loop of `fmt`'s integer formatting in base ten: digits are produced
from the least significant one and written in front of what is already there.
`fuel` bounds the number of iterations. -/
def fmtInteger.loop : Nat → Nat → List Char → List Char
  | 0, u, acc => digitChar u :: acc
  | fuel + 1, u, acc =>
    if u ≥ 10 then fmtInteger.loop fuel (u / 10) (digitChar (u - (u / 10) * 10) :: acc)
    else digitChar u :: acc

/-- The verb `%d` on an unsigned integer. -/
def fmtInteger (u : Nat) : List Char := fmtInteger.loop u u []

/-- The name that `fmt` prints for the type of an operand in a diagnostic. -/
def Arg.typeName : Arg → String
  | .str _ => "string"
  | .uint _ => "uint16"
  | .err e => e.dynType

/-- The default (`%v`) rendering of an operand: a string is itself, an integer is
decimal, an error is its `Error()` text. -/
def Arg.value : Arg → List Char
  | .str s => s.data
  | .uint n => fmtInteger n
  | .err e => e.Error.data

/-- The rendering `type=value` of a surplus operand. -/
def Arg.typed (a : Arg) : List Char := a.typeName.data ++ [ '=' ] ++ a.value

/-- One directive applied to one operand.  Only `%v`, `%s` and `%d` are interpreted;
any other pairing of verb and operand is rendered in the shape of Go's diagnostic
`%!verb(type=value)`, which no format of this package reaches. -/
def printArg (verb : Char) (a : Arg) : List Char :=
  let bad := [ '%', '!', verb, '(' ] ++ a.typed ++ [ ')' ]
  match a with
  | .str s => if verb = 'v' ∨ verb = 's' then s.data else bad
  | .uint n => if verb = 'v' ∨ verb = 'd' then fmtInteger n else bad
  | .err e => if verb = 'v' ∨ verb = 's' then e.Error.data else bad

/-- Surplus operands after the first, each preceded by a comma. -/
def extraTail : List Arg → List Char
  | [] => []
  | b :: rest => ", ".data ++ b.typed ++ extraTail rest

/-- Operands left over when the format is exhausted: `%!(EXTRA type=value, ...)`. -/
def extraArgs : List Arg → List Char
  | [] => []
  | a :: rest => "%!(EXTRA ".data ++ a.typed ++ extraTail rest ++ [ ')' ]

/-- The scan of `fmt`'s `doPrintf`, for directives without flags, width, precision or
argument index: plain text is copied, `%%` is a percent sign, any other `%c` consumes
the next operand. -/
def doPrintf : List Char → List Arg → List Char
  | [], args => extraArgs args
  | [ '%' ], args => "%!(NOVERB)".data ++ extraArgs args
  | '%' :: '%' :: rest, args => '%' :: doPrintf rest args
  | '%' :: verb :: rest, [] => "%!".data ++ [ verb ] ++ "(MISSING)".data ++ doPrintf rest []
  | '%' :: verb :: rest, a :: args => printArg verb a ++ doPrintf rest args
  | c :: rest, args => c :: doPrintf rest args

/-- The function `fmt.Sprintf`. -/
def fmt.Sprintf (format : String) (args : List Arg) : String :=
  String.mk (doPrintf format.data args)

/-- The function `fmt.Errorf` (no `%w` is used in this package): a new error whose
text is the formatted string. -/
def fmt.Errorf (format : String) (args : List Arg) : GoError :=
  errors.New (fmt.Sprintf format args)

/-! ## The client -/

/-- The call `output.NewServiceClient(cc)` of the generated package. -/
def output.NewServiceClient (env : Env) (cc : Option ClientConn) (tr : List Event) :
    OutputServiceClient × List Event :=
  (env.NewOutputServiceClient tr cc, tr ++ [Event.NewOutputServiceClient cc])

/-- The call `version.NewServiceClient(cc)` of the generated package. -/
def version.NewServiceClient (env : Env) (cc : Option ClientConn) (tr : List Event) :
    VersionServiceClient × List Event :=
  (env.NewVersionServiceClient tr cc, tr ++ [Event.NewVersionServiceClient cc])

/-- The struct `Client`; a nil field is `none`. -/
structure Client where
  conn : Option ClientConn
  versionServiceClient : Option VersionServiceClient
  outputServiceClient : Option OutputServiceClient
deriving DecidableEq, Repr

/-- The struct `Config`; `Port` is a `uint16`, that is a number below 65536 (no
statement below depends on the bound). -/
structure Config where
  Hostname : String
  Port : Nat
  CertFile : String
  KeyFile : String
  CARootFile : String
  UnixSocketPath : String
deriving DecidableEq, Repr

/-- The constant `targetFormat`. -/
def targetFormat : String := "%s:%d"

/-- The call `grpc.Dial(target, opt)`. -/
def grpc.Dial (env : Env) (target : String) (opt : DialOption) (tr : List Event) :
    (Option ClientConn × Option GoError) × List Event :=
  (env.Dial tr target opt, tr ++ [Event.Dial target opt])

/-- The call `tls.LoadX509KeyPair(certFile, keyFile)`. -/
def tls.LoadX509KeyPair (env : Env) (certFile keyFile : String) (tr : List Event) :
    (Certificate × Option GoError) × List Event :=
  (env.LoadX509KeyPair tr certFile keyFile, tr ++ [Event.LoadX509KeyPair certFile keyFile])

/-- The call `ioutil.ReadFile(filename)`. -/
def ioutil.ReadFile (env : Env) (filename : String) (tr : List Event) :
    (List UInt8 × Option GoError) × List Event :=
  (env.ReadFile tr filename, tr ++ [Event.ReadFile filename])

/-- The call `pool.AppendCertsFromPEM(pemCerts)`: the pool afterwards and the flag. -/
def CertPool.AppendCertsFromPEM (env : Env) (pool : CertPool) (pemCerts : List UInt8)
    (tr : List Event) : (CertPool × Bool) × List Event :=
  (env.AppendCertsFromPEM tr pool pemCerts, tr ++ [Event.AppendCertsFromPEM pemCerts])

/-- The function `newUnixSocketClient`. -/
def newUnixSocketClient (env : Env) (config : Config) (tr : List Event) :
    (Option Client × Option GoError) × List Event :=
  let dialOption := DialOption.WithInsecure
  let ((conn, err), tr) := grpc.Dial env config.UnixSocketPath dialOption tr
  match err with
  | some err => ((none, some (fmt.Errorf "error dialing server: %v" [Arg.err err])), tr)
  | none =>
    ((some { conn := conn, versionServiceClient := none, outputServiceClient := none }, none), tr)

/-- The function `newNetworkClient`. -/
def newNetworkClient (env : Env) (config : Config) (tr : List Event) :
    (Option Client × Option GoError) × List Event :=
  let ((certificate, err), tr) := tls.LoadX509KeyPair env config.CertFile config.KeyFile tr
  match err with
  | some err => ((none, some (fmt.Errorf "error loading the X.509 key pair: %v" [Arg.err err])), tr)
  | none =>
    let certPool := x509.NewCertPool
    let ((rootCA, err), tr) := ioutil.ReadFile env config.CARootFile tr
    match err with
    | some err =>
      ((none, some (fmt.Errorf "error reading the CA Root file certificate: %v" [Arg.err err])), tr)
    | none =>
      let ((certPool, ok), tr) := CertPool.AppendCertsFromPEM env certPool rootCA tr
      if !ok then
        ((none, some (fmt.Errorf "error appending the root CA to the certificate pool" [])), tr)
      else
        let transportCreds := TransportCredentials.NewTLS
          { ServerName := config.Hostname
            Certificates := [certificate]
            RootCAs := certPool }
        let dialOption := DialOption.WithTransportCredentials transportCreds
        let ((conn, err), tr) :=
          grpc.Dial env (fmt.Sprintf targetFormat [Arg.str config.Hostname, Arg.uint config.Port])
            dialOption tr
        match err with
        | some err => ((none, some (fmt.Errorf "error dialing server: %v" [Arg.err err])), tr)
        | none =>
          ((some { conn := conn, versionServiceClient := none, outputServiceClient := none }, none),
            tr)

/-- The function `NewForConfig`; `len(s) > 0` is the length of the string in bytes. -/
def NewForConfig (env : Env) (config : Config) (tr : List Event) :
    (Option Client × Option GoError) × List Event :=
  if config.UnixSocketPath.utf8ByteSize > 0 then
    newUnixSocketClient env config tr
  else
    newNetworkClient env config tr

/-- The method `checkConn`. -/
def Client.checkConn (c : Client) : Option GoError :=
  if c.conn = none then
    some (fmt.Errorf "missing connection for the current client" [])
  else
    none

/-- The method `Output`: the returned pair, the receiver afterwards, the trace. -/
def Client.Output (env : Env) (c : Client) (tr : List Event) :
    (Option OutputServiceClient × Option GoError) × Client × List Event :=
  match c.checkConn with
  | some err => ((none, some err), c, tr)
  | none =>
    let (c, tr) :=
      if c.outputServiceClient = none then
        let (sc, tr) := output.NewServiceClient env c.conn tr
        ({ c with outputServiceClient := some sc }, tr)
      else
        (c, tr)
    ((c.outputServiceClient, none), c, tr)

/-- The method `Version`: the returned pair, the receiver afterwards, the trace. -/
def Client.Version (env : Env) (c : Client) (tr : List Event) :
    (Option VersionServiceClient × Option GoError) × Client × List Event :=
  match c.checkConn with
  | some err => ((none, some err), c, tr)
  | none =>
    let (c, tr) :=
      if c.versionServiceClient = none then
        let (sc, tr) := version.NewServiceClient env c.conn tr
        ({ c with versionServiceClient := some sc }, tr)
      else
        (c, tr)
    ((c.versionServiceClient, none), c, tr)

/-- A run-time panic of the Go program. -/
inductive Panic where
  | nilDereference
deriving DecidableEq, Repr

/-- The method `(*grpc.ClientConn).Close` called through a pointer that may be nil:
a nil receiver is dereferenced at once, which panics. -/
def ClientConn.Close (env : Env) (cc : Option ClientConn) (tr : List Event) :
    Except Panic (Option GoError) × List Event :=
  match cc with
  | none => (.error Panic.nilDereference, tr)
  | some conn => (.ok (env.ConnClose tr conn), tr ++ [Event.ConnClose conn])

/-- The method `Close`: what it returns (or the panic), the receiver afterwards, the
trace. -/
def Client.Close (env : Env) (c : Client) (tr : List Event) :
    Except Panic (Option GoError) × Client × List Event :=
  match c.checkConn with
  | some err => (.ok (some err), c, tr)
  | none =>
    let (r, tr) := ClientConn.Close env c.conn tr
    (r, c, tr)

/-! ## A concrete world, used to instantiate the theorems -/

/-- The error of a file that does not exist. -/
def noSuchFile (name : String) : GoError :=
  { dynType := "*fs.PathError", msg := "open " ++ name ++ ": no such file or directory" }

/-- The error of a dial that ran out of time. -/
def deadlineExceeded : GoError :=
  { dynType := "context.deadlineExceededError", msg := "context deadline exceeded" }

/-- The error of gRPC for a connection that was closed before. -/
def ErrClientConnClosing : GoError :=
  { dynType := "*status.Error", msg := "grpc: the client connection is closing" }

/-- A world with one key pair (`client.crt`, `client.key`), one CA bundle (`ca.crt`),
one file without any certificate (`empty.crt`), two unreachable targets, connections
whose second close is refused, and stub constructors that return a new instance at
every call. -/
def demoEnv : Env where
  LoadX509KeyPair := fun _ certFile keyFile =>
    if certFile = "client.crt" ∧ keyFile = "client.key" then
      ({ chain := [[48, 130]], key := [48, 129] }, none)
    else
      ({ chain := [], key := [] }, some (noSuchFile certFile))
  ReadFile := fun _ filename =>
    if filename = "ca.crt" then ([45, 45, 45], none)
    else if filename = "empty.crt" then ([], none)
    else ([], some (noSuchFile filename))
  AppendCertsFromPEM := fun _ pool pemCerts =>
    if pemCerts = [] then (pool, false) else ({ certs := pool.certs ++ [pemCerts] }, true)
  Dial := fun _ target _ =>
    if target = "down.example:5060" ∨ target = "/tmp/down.sock" then
      (none, some deadlineExceeded)
    else
      (some { ref := 1 }, none)
  ConnClose := fun tr conn =>
    if Event.ConnClose conn ∈ tr then some ErrClientConnClosing else none
  NewOutputServiceClient := fun tr _ => { ref := tr.length }
  NewVersionServiceClient := fun tr _ => { ref := tr.length }

/-- Unix-socket mode, with TLS fields that name no usable file. -/
def unixConfig : Config :=
  { Hostname := "", Port := 0, CertFile := "missing.crt", KeyFile := "",
    CARootFile := "garbage", UnixSocketPath := "/tmp/falco.sock" }

/-- Unix-socket mode towards a socket that does not answer. -/
def unixDownConfig : Config :=
  { Hostname := "", Port := 0, CertFile := "", KeyFile := "",
    CARootFile := "", UnixSocketPath := "/tmp/down.sock" }

/-- Network mode with valid credentials. -/
def networkConfig : Config :=
  { Hostname := "localhost", Port := 5060, CertFile := "client.crt", KeyFile := "client.key",
    CARootFile := "ca.crt", UnixSocketPath := "" }

/-- Unix-socket mode with the socket of `unixConfig`, and valid TLS fields as well. -/
def unixConfigWithTLS : Config := { networkConfig with UnixSocketPath := "/tmp/falco.sock" }

/-- Network mode towards a host that does not answer. -/
def networkDownConfig : Config := { networkConfig with Hostname := "down.example" }

/-- Network mode, the certificate file is missing. -/
def badKeyConfig : Config := { networkConfig with CertFile := "missing.crt" }

/-- Network mode, the CA root file holds no certificate. -/
def emptyCAConfig : Config := { networkConfig with CARootFile := "empty.crt" }

/-- The TLS configuration that `networkConfig` leads to in `demoEnv`. -/
def networkTLS (serverName : String) : TLSConfig :=
  { ServerName := serverName
    Certificates := [{ chain := [[48, 130]], key := [48, 129] }]
    RootCAs := { certs := [[45, 45, 45]] } }

/-- The zero value `Client{}`: never opened. -/
def neverOpened : Client :=
  { conn := none, versionServiceClient := none, outputServiceClient := none }

/-- A client as `NewForConfig` returns it: a connection, no sub-client yet. -/
def connectedClient : Client :=
  { conn := some { ref := 1 }, versionServiceClient := none, outputServiceClient := none }

/-! ## Lemmas on strings and formatting -/

theorem utf8ByteSize_go_pos (c : Char) (cs : List Char) : 0 < String.utf8ByteSize.go (c :: cs) := by
  have h := Char.utf8Size_pos c
  simp only [String.utf8ByteSize.go]
  omega

theorem utf8ByteSize_pos_iff (s : String) : 0 < s.utf8ByteSize ↔ s ≠ "" := by
  rcases s with ⟨cs⟩
  cases cs with
  | nil => simp [String.utf8ByteSize, String.utf8ByteSize.go]
  | cons c cs =>
    have h := utf8ByteSize_go_pos c cs
    simp only [String.utf8ByteSize]
    constructor
    · intro _ hc
      have := congrArg String.data hc
      simp at this
    · intro _; exact h

theorem digitChar_eq (d : Nat) (h : d < 10) : digitChar d = Nat.digitChar d := by
  interval_cases d <;> rfl

theorem fmtInteger_loop_eq (fuel : Nat) : ∀ (u : Nat) (acc : List Char), u ≤ fuel →
    fmtInteger.loop fuel u acc = Nat.toDigitsCore 10 (fuel + 1) u acc := by
  induction fuel with
  | zero =>
    intro u acc hu
    have : u = 0 := by omega
    subst this
    simp [fmtInteger.loop, Nat.toDigitsCore, digitChar_eq]
  | succ fuel ih =>
    intro u acc hu
    rw [fmtInteger.loop, Nat.toDigitsCore]
    by_cases h : u ≥ 10
    · have h1 : u / 10 ≠ 0 := by omega
      have h2 : u - u / 10 * 10 = u % 10 := by omega
      have h3 : u / 10 ≤ fuel := by omega
      have h4 : u % 10 < 10 := by omega
      simp only [h, h1, h2, if_true, if_false, ih (u / 10) _ h3, digitChar_eq _ h4]
    · have h1 : u / 10 = 0 := by omega
      have h2 : u % 10 = u := by omega
      have h4 : u < 10 := by omega
      simp only [h, h1, h2, if_true, if_false, digitChar_eq _ h4]

theorem fmtInteger_eq_repr (u : Nat) : String.mk (fmtInteger u) = Nat.repr u := by
  simp only [fmtInteger, Nat.repr, Nat.toDigits, List.asString, fmtInteger_loop_eq u u [] (le_refl u)]

theorem Sprintf_targetFormat (host : String) (port : Nat) :
    fmt.Sprintf targetFormat [Arg.str host, Arg.uint port] = host ++ ":" ++ Nat.repr port := by
  rw [← fmtInteger_eq_repr]
  apply String.ext
  simp [fmt.Sprintf, targetFormat, doPrintf, printArg, extraArgs]

theorem Errorf_dial (e : GoError) :
    fmt.Errorf "error dialing server: %v" [Arg.err e] = errors.New ("error dialing server: " ++ e.Error) := by
  simp [fmt.Errorf, fmt.Sprintf, doPrintf, printArg, extraArgs]
  rfl

theorem Errorf_keyPair (e : GoError) :
    fmt.Errorf "error loading the X.509 key pair: %v" [Arg.err e] =
      errors.New ("error loading the X.509 key pair: " ++ e.Error) := by
  simp [fmt.Errorf, fmt.Sprintf, doPrintf, printArg, extraArgs]
  rfl

theorem Errorf_readCA (e : GoError) :
    fmt.Errorf "error reading the CA Root file certificate: %v" [Arg.err e] =
      errors.New ("error reading the CA Root file certificate: " ++ e.Error) := by
  simp [fmt.Errorf, fmt.Sprintf, doPrintf, printArg, extraArgs]
  rfl

theorem Errorf_appendCA :
    fmt.Errorf "error appending the root CA to the certificate pool" [] =
      errors.New "error appending the root CA to the certificate pool" := by
  rfl

theorem Errorf_missingConn :
    fmt.Errorf "missing connection for the current client" [] =
      errors.New "missing connection for the current client" := by
  rfl

/-! ## Connection builder -/

theorem newUnixSocketClient_eq (env : Env) (config : Config) (tr : List Event) :
    newUnixSocketClient env config tr =
      (match env.Dial tr config.UnixSocketPath DialOption.WithInsecure with
        | (_, some e) => (none, some (errors.New ("error dialing server: " ++ e.Error)))
        | (conn, none) =>
          (some { conn := conn, versionServiceClient := none, outputServiceClient := none }, none),
       tr ++ [Event.Dial config.UnixSocketPath DialOption.WithInsecure]) := by
  simp only [newUnixSocketClient, grpc.Dial]
  rcases env.Dial tr config.UnixSocketPath DialOption.WithInsecure with ⟨conn, _ | e⟩
  · simp
  · simp [Errorf_dial]

theorem NewForConfig_unix (env : Env) (config : Config) (tr : List Event)
    (hpath : config.UnixSocketPath ≠ "") :
    NewForConfig env config tr = newUnixSocketClient env config tr := by
  simp [NewForConfig, (utf8ByteSize_pos_iff _).2 hpath]

theorem NewForConfig_network (env : Env) (config : Config) (tr : List Event)
    (hpath : config.UnixSocketPath = "") :
    NewForConfig env config tr = newNetworkClient env config tr := by
  have h : ¬ 0 < config.UnixSocketPath.utf8ByteSize := by
    rw [utf8ByteSize_pos_iff]; simp [hpath]
  simp [NewForConfig, h]

theorem newNetworkClient_load_fail (env : Env) (config : Config) (tr : List Event) (e : GoError)
    (hload : (env.LoadX509KeyPair tr config.CertFile config.KeyFile).2 = some e) :
    newNetworkClient env config tr =
      ((none, some (errors.New ("error loading the X.509 key pair: " ++ e.Error))),
       tr ++ [Event.LoadX509KeyPair config.CertFile config.KeyFile]) := by
  simp only [newNetworkClient, tls.LoadX509KeyPair]
  rcases hk : env.LoadX509KeyPair tr config.CertFile config.KeyFile with ⟨cert, kerr⟩
  rw [hk] at hload
  simp only at hload
  subst hload
  simp [Errorf_keyPair]

theorem newNetworkClient_read_fail (env : Env) (config : Config) (tr : List Event) (e : GoError)
    (hload : (env.LoadX509KeyPair tr config.CertFile config.KeyFile).2 = none)
    (hread : (env.ReadFile (tr ++ [Event.LoadX509KeyPair config.CertFile config.KeyFile])
        config.CARootFile).2 = some e) :
    newNetworkClient env config tr =
      ((none, some (errors.New ("error reading the CA Root file certificate: " ++ e.Error))),
       tr ++ [Event.LoadX509KeyPair config.CertFile config.KeyFile,
           Event.ReadFile config.CARootFile]) := by
  simp only [newNetworkClient, tls.LoadX509KeyPair, ioutil.ReadFile]
  rcases hk : env.LoadX509KeyPair tr config.CertFile config.KeyFile with ⟨cert, kerr⟩
  rw [hk] at hload
  simp only at hload
  subst hload
  simp only
  rcases hr : env.ReadFile (tr ++ [Event.LoadX509KeyPair config.CertFile config.KeyFile])
    config.CARootFile with ⟨rootCA, rerr⟩
  rw [hr] at hread
  simp only at hread
  subst hread
  simp [Errorf_readCA]

theorem newNetworkClient_append_fail (env : Env) (config : Config) (tr : List Event)
    (hload : (env.LoadX509KeyPair tr config.CertFile config.KeyFile).2 = none)
    (hread : (env.ReadFile (tr ++ [Event.LoadX509KeyPair config.CertFile config.KeyFile])
        config.CARootFile).2 = none)
    (happend : (env.AppendCertsFromPEM
        (tr ++ [Event.LoadX509KeyPair config.CertFile config.KeyFile,
          Event.ReadFile config.CARootFile])
        x509.NewCertPool
        (env.ReadFile (tr ++ [Event.LoadX509KeyPair config.CertFile config.KeyFile])
          config.CARootFile).1).2 = false) :
    newNetworkClient env config tr =
      ((none, some (errors.New "error appending the root CA to the certificate pool")),
       tr ++ [Event.LoadX509KeyPair config.CertFile config.KeyFile,
           Event.ReadFile config.CARootFile,
           Event.AppendCertsFromPEM
             (env.ReadFile (tr ++ [Event.LoadX509KeyPair config.CertFile config.KeyFile])
               config.CARootFile).1]) := by
  simp only [newNetworkClient, tls.LoadX509KeyPair, ioutil.ReadFile, CertPool.AppendCertsFromPEM]
  rcases hk : env.LoadX509KeyPair tr config.CertFile config.KeyFile with ⟨cert, kerr⟩
  rw [hk] at hload
  simp only at hload
  subst hload
  simp only
  rcases hr : env.ReadFile (tr ++ [Event.LoadX509KeyPair config.CertFile config.KeyFile])
    config.CARootFile with ⟨rootCA, rerr⟩
  rw [hr] at hread happend
  simp only at hread
  subst hread
  simp only [List.append_assoc, List.singleton_append] at happend
  simp [happend, Errorf_appendCA]

theorem newNetworkClient_success (env : Env) (config : Config) (tr : List Event)
    (hload : (env.LoadX509KeyPair tr config.CertFile config.KeyFile).2 = none)
    (hread : (env.ReadFile (tr ++ [Event.LoadX509KeyPair config.CertFile config.KeyFile])
        config.CARootFile).2 = none)
    (happend : (env.AppendCertsFromPEM
        (tr ++ [Event.LoadX509KeyPair config.CertFile config.KeyFile,
          Event.ReadFile config.CARootFile])
        x509.NewCertPool
        (env.ReadFile (tr ++ [Event.LoadX509KeyPair config.CertFile config.KeyFile])
          config.CARootFile).1).2 = true) :
    newNetworkClient env config tr =
      (match env.Dial
          (tr ++ [Event.LoadX509KeyPair config.CertFile config.KeyFile,
            Event.ReadFile config.CARootFile,
            Event.AppendCertsFromPEM
              (env.ReadFile (tr ++ [Event.LoadX509KeyPair config.CertFile config.KeyFile])
                config.CARootFile).1])
          (config.Hostname ++ ":" ++ Nat.repr config.Port)
          (DialOption.WithTransportCredentials (TransportCredentials.NewTLS
            { ServerName := config.Hostname
              Certificates :=
                [(env.LoadX509KeyPair tr config.CertFile config.KeyFile).1]
              RootCAs := (env.AppendCertsFromPEM
                (tr ++ [Event.LoadX509KeyPair config.CertFile config.KeyFile,
                  Event.ReadFile config.CARootFile])
                x509.NewCertPool
                (env.ReadFile
                  (tr ++ [Event.LoadX509KeyPair config.CertFile config.KeyFile])
                  config.CARootFile).1).1 })) with
        | (_, some e) => (none, some (errors.New ("error dialing server: " ++ e.Error)))
        | (conn, none) =>
          (some { conn := conn, versionServiceClient := none, outputServiceClient := none }, none),
       tr ++ [Event.LoadX509KeyPair config.CertFile config.KeyFile,
           Event.ReadFile config.CARootFile,
           Event.AppendCertsFromPEM
             (env.ReadFile (tr ++ [Event.LoadX509KeyPair config.CertFile config.KeyFile])
               config.CARootFile).1,
           Event.Dial (config.Hostname ++ ":" ++ Nat.repr config.Port)
             (DialOption.WithTransportCredentials (TransportCredentials.NewTLS
               { ServerName := config.Hostname
                 Certificates :=
                   [(env.LoadX509KeyPair tr config.CertFile config.KeyFile).1]
                 RootCAs := (env.AppendCertsFromPEM
                   (tr ++ [Event.LoadX509KeyPair config.CertFile config.KeyFile,
                     Event.ReadFile config.CARootFile])
                   x509.NewCertPool
                   (env.ReadFile
                     (tr ++ [Event.LoadX509KeyPair config.CertFile config.KeyFile])
                     config.CARootFile).1).1 }))]) := by
  simp only [newNetworkClient, tls.LoadX509KeyPair, ioutil.ReadFile, CertPool.AppendCertsFromPEM,
    grpc.Dial, Sprintf_targetFormat]
  rcases hk : env.LoadX509KeyPair tr config.CertFile config.KeyFile with ⟨cert, kerr⟩
  rw [hk] at hload
  simp only at hload
  subst hload
  simp only
  rcases hr : env.ReadFile (tr ++ [Event.LoadX509KeyPair config.CertFile config.KeyFile])
    config.CARootFile with ⟨rootCA, rerr⟩
  rw [hr] at hread happend
  simp only at hread
  subst hread
  simp only [List.append_assoc, List.singleton_append] at happend ⊢
  rcases ha : env.AppendCertsFromPEM
    (tr ++ [Event.LoadX509KeyPair config.CertFile config.KeyFile,
      Event.ReadFile config.CARootFile]) x509.NewCertPool rootCA with ⟨pool, ok⟩
  rw [ha] at happend
  simp only at happend
  subst happend
  simp only [Bool.not_true, Bool.false_eq_true, if_false, List.append_assoc,
    List.singleton_append, List.cons_append, List.nil_append]
  rcases env.Dial _ _ _ with ⟨conn, _ | e⟩
  · simp
  · simp [Errorf_dial]

/-- C1: in Unix-socket mode (non-empty `UnixSocketPath`) the only effect of
`NewForConfig` is one dial, to `UnixSocketPath` with the insecure option: the key pair
is not loaded and the CA root file is not read, whatever the other fields hold.  The
returned pair is the same for any other world, configuration and history that agree on
the socket path and on the outcome of that dial. -/
theorem NewForConfig_unix_socket_single_insecure_dial (env : Env) (config : Config)
    (tr : List Event) (hpath : config.UnixSocketPath ≠ "") :
    (NewForConfig env config tr).2 =
        tr ++ [Event.Dial config.UnixSocketPath DialOption.WithInsecure]
    ∧ ∀ (env2 : Env) (config2 : Config) (tr2 : List Event),
        config2.UnixSocketPath = config.UnixSocketPath →
        env2.Dial tr2 config.UnixSocketPath DialOption.WithInsecure =
          env.Dial tr config.UnixSocketPath DialOption.WithInsecure →
        (NewForConfig env2 config2 tr2).1 = (NewForConfig env config tr).1 := by
  refine ⟨?_, ?_⟩
  · rw [NewForConfig_unix env config tr hpath, newUnixSocketClient_eq]
  · intro env2 config2 tr2 hsame hdial
    have hpath2 : config2.UnixSocketPath ≠ "" := by rw [hsame]; exact hpath
    rw [NewForConfig_unix env config tr hpath, NewForConfig_unix env2 config2 tr2 hpath2,
      newUnixSocketClient_eq, newUnixSocketClient_eq, hsame, hdial]

/-- An instance with garbage TLS fields: one insecure dial, and the same result as with
valid TLS fields. -/
theorem NewForConfig_unix_socket_single_insecure_dial_witness :
    unixConfig.UnixSocketPath ≠ ""
    ∧ (NewForConfig demoEnv unixConfig []).2 =
        [Event.Dial "/tmp/falco.sock" DialOption.WithInsecure]
    ∧ (NewForConfig demoEnv unixConfigWithTLS []).1 = (NewForConfig demoEnv unixConfig []).1 :=
  ⟨by decide,
   (NewForConfig_unix_socket_single_insecure_dial demoEnv unixConfig [] (by decide)).1,
   (NewForConfig_unix_socket_single_insecure_dial demoEnv unixConfig [] (by decide)).2
     demoEnv unixConfigWithTLS [] (by decide) (by decide)⟩

/-- C4: in network mode (empty `UnixSocketPath`), when loading the X.509 key pair
fails with cause `e`, `NewForConfig` returns no client and the error "error loading
the X.509 key pair: " followed by the text of `e`; the only effect is the attempt to
load the key pair: the CA root file is not read and nothing is dialled. -/
theorem NewForConfig_key_pair_failure (env : Env) (config : Config) (tr : List Event)
    (e : GoError) (hpath : config.UnixSocketPath = "")
    (hload : (env.LoadX509KeyPair tr config.CertFile config.KeyFile).2 = some e) :
    NewForConfig env config tr =
      ((none, some (errors.New ("error loading the X.509 key pair: " ++ e.Error))),
       tr ++ [Event.LoadX509KeyPair config.CertFile config.KeyFile]) := by
  rw [NewForConfig_network env config tr hpath]
  exact newNetworkClient_load_fail env config tr e hload

/-- An instance with a missing certificate file. -/
theorem NewForConfig_key_pair_failure_witness :
    badKeyConfig.UnixSocketPath = ""
    ∧ (demoEnv.LoadX509KeyPair [] badKeyConfig.CertFile badKeyConfig.KeyFile).2 =
        some (noSuchFile "missing.crt")
    ∧ NewForConfig demoEnv badKeyConfig [] =
        ((none, some (errors.New
            "error loading the X.509 key pair: open missing.crt: no such file or directory")),
         [Event.LoadX509KeyPair "missing.crt" "client.key"]) :=
  ⟨by decide, by decide,
   NewForConfig_key_pair_failure demoEnv badKeyConfig []
     (noSuchFile "missing.crt") (by decide) (by decide)⟩

/-- C5: in network mode, when the key pair loads but reading `CARootFile` fails, or the
certificate pool rejects what was read (`AppendCertsFromPEM` returns false),
`NewForConfig` returns no client and a credential error ("error reading the CA Root
file certificate: " followed by the cause, respectively "error appending the root CA to
the certificate pool"); the effects end with the failing call, so nothing is dialled. -/
theorem NewForConfig_ca_root_failure (env : Env) (config : Config) (tr : List Event)
    (hpath : config.UnixSocketPath = "")
    (hload : (env.LoadX509KeyPair tr config.CertFile config.KeyFile).2 = none)
    (hca :
      (env.ReadFile (tr ++ [Event.LoadX509KeyPair config.CertFile config.KeyFile])
          config.CARootFile).2 ≠ none
      ∨ (env.AppendCertsFromPEM
            (tr ++ [Event.LoadX509KeyPair config.CertFile config.KeyFile,
              Event.ReadFile config.CARootFile])
            x509.NewCertPool
            (env.ReadFile (tr ++ [Event.LoadX509KeyPair config.CertFile config.KeyFile])
              config.CARootFile).1).2 = false) :
    NewForConfig env config tr =
      match (env.ReadFile (tr ++ [Event.LoadX509KeyPair config.CertFile config.KeyFile])
          config.CARootFile).2 with
      | some e =>
        ((none, some (errors.New ("error reading the CA Root file certificate: " ++ e.Error))),
         tr ++ [Event.LoadX509KeyPair config.CertFile config.KeyFile,
             Event.ReadFile config.CARootFile])
      | none =>
        ((none, some (errors.New "error appending the root CA to the certificate pool")),
         tr ++ [Event.LoadX509KeyPair config.CertFile config.KeyFile,
             Event.ReadFile config.CARootFile,
             Event.AppendCertsFromPEM
               (env.ReadFile
                 (tr ++ [Event.LoadX509KeyPair config.CertFile config.KeyFile])
                 config.CARootFile).1]) := by
  rw [NewForConfig_network env config tr hpath]
  rcases hr : (env.ReadFile (tr ++ [Event.LoadX509KeyPair config.CertFile config.KeyFile])
    config.CARootFile).2 with _ | e
  · rw [hr] at hca
    simp only [ne_eq, not_true_eq_false, false_or] at hca
    exact newNetworkClient_append_fail env config tr hload hr hca
  · exact newNetworkClient_read_fail env config tr e hload hr

/-- An instance with a CA root file that holds no certificate. -/
theorem NewForConfig_ca_root_failure_witness :
    emptyCAConfig.UnixSocketPath = ""
    ∧ NewForConfig demoEnv emptyCAConfig [] =
        ((none, some (errors.New "error appending the root CA to the certificate pool")),
         [Event.LoadX509KeyPair "client.crt" "client.key",
             Event.ReadFile "empty.crt", Event.AppendCertsFromPEM []]) :=
  ⟨by decide,
   NewForConfig_ca_root_failure demoEnv emptyCAConfig [] (by decide) (by decide)
     (Or.inr (by decide))⟩

/-- C6: in network mode, when the key pair, the CA root file and the pool all load,
`NewForConfig` performs the three credential calls and then dials exactly once; the
target of that dial is `Hostname`, a colon, and `Port` in decimal, for every hostname
and every port. -/
theorem NewForConfig_network_dial_target (env : Env) (config : Config) (tr : List Event)
    (hpath : config.UnixSocketPath = "")
    (hload : (env.LoadX509KeyPair tr config.CertFile config.KeyFile).2 = none)
    (hread : (env.ReadFile (tr ++ [Event.LoadX509KeyPair config.CertFile config.KeyFile])
        config.CARootFile).2 = none)
    (happend : (env.AppendCertsFromPEM
        (tr ++ [Event.LoadX509KeyPair config.CertFile config.KeyFile,
          Event.ReadFile config.CARootFile])
        x509.NewCertPool
        (env.ReadFile (tr ++ [Event.LoadX509KeyPair config.CertFile config.KeyFile])
          config.CARootFile).1).2 = true) :
    ∃ opt : DialOption,
      (NewForConfig env config tr).2 =
        tr ++ [Event.LoadX509KeyPair config.CertFile config.KeyFile,
          Event.ReadFile config.CARootFile,
          Event.AppendCertsFromPEM
            (env.ReadFile (tr ++ [Event.LoadX509KeyPair config.CertFile config.KeyFile])
              config.CARootFile).1,
          Event.Dial (config.Hostname ++ ":" ++ Nat.repr config.Port) opt] := by
  rw [NewForConfig_network env config tr hpath,
    newNetworkClient_success env config tr hload hread happend]
  exact ⟨_, rfl⟩

/-- An instance: host `localhost` and port 5060 give the target `localhost:5060`. -/
theorem NewForConfig_network_dial_target_witness :
    networkConfig.UnixSocketPath = ""
    ∧ networkConfig.Hostname ++ ":" ++ Nat.repr networkConfig.Port = "localhost:5060"
    ∧ ∃ opt : DialOption,
        (NewForConfig demoEnv networkConfig []).2 =
          [] ++ [Event.LoadX509KeyPair networkConfig.CertFile networkConfig.KeyFile,
            Event.ReadFile networkConfig.CARootFile,
            Event.AppendCertsFromPEM
              (demoEnv.ReadFile
                ([] ++
                  [Event.LoadX509KeyPair networkConfig.CertFile networkConfig.KeyFile])
                networkConfig.CARootFile).1,
            Event.Dial (networkConfig.Hostname ++ ":" ++ Nat.repr networkConfig.Port) opt] :=
  ⟨by decide, by decide,
   NewForConfig_network_dial_target demoEnv networkConfig [] (by decide) (by decide)
     (by decide) (by decide)⟩

/-- C9: in network mode, when the key pair, the CA root file and the pool all load, the
dial is made with transport credentials built from a TLS configuration whose server
name is `Hostname`, whose certificate list is exactly the loaded key pair, and whose
root pool is the pool obtained by appending the content of `CARootFile` to a new pool. -/
theorem NewForConfig_network_tls_config (env : Env) (config : Config) (tr : List Event)
    (hpath : config.UnixSocketPath = "")
    (hload : (env.LoadX509KeyPair tr config.CertFile config.KeyFile).2 = none)
    (hread : (env.ReadFile (tr ++ [Event.LoadX509KeyPair config.CertFile config.KeyFile])
        config.CARootFile).2 = none)
    (happend : (env.AppendCertsFromPEM
        (tr ++ [Event.LoadX509KeyPair config.CertFile config.KeyFile,
          Event.ReadFile config.CARootFile])
        x509.NewCertPool
        (env.ReadFile (tr ++ [Event.LoadX509KeyPair config.CertFile config.KeyFile])
          config.CARootFile).1).2 = true) :
    ∃ (history : List Event) (target : String) (tlsConfig : TLSConfig),
      (NewForConfig env config tr).2 =
        history ++ [Event.Dial target
          (DialOption.WithTransportCredentials (TransportCredentials.NewTLS tlsConfig))]
      ∧ tlsConfig.ServerName = config.Hostname
      ∧ tlsConfig.Certificates =
          [(env.LoadX509KeyPair tr config.CertFile config.KeyFile).1]
      ∧ tlsConfig.RootCAs =
          (env.AppendCertsFromPEM
            (tr ++ [Event.LoadX509KeyPair config.CertFile config.KeyFile,
              Event.ReadFile config.CARootFile])
            x509.NewCertPool
            (env.ReadFile (tr ++ [Event.LoadX509KeyPair config.CertFile config.KeyFile])
              config.CARootFile).1).1 := by
  rw [NewForConfig_network env config tr hpath,
    newNetworkClient_success env config tr hload hread happend]
  refine ⟨tr ++ [Event.LoadX509KeyPair config.CertFile config.KeyFile,
    Event.ReadFile config.CARootFile,
    Event.AppendCertsFromPEM
      (env.ReadFile (tr ++ [Event.LoadX509KeyPair config.CertFile config.KeyFile])
        config.CARootFile).1], config.Hostname ++ ":" ++ Nat.repr config.Port,
    { ServerName := config.Hostname
      Certificates := [(env.LoadX509KeyPair tr config.CertFile config.KeyFile).1]
      RootCAs := (env.AppendCertsFromPEM
        (tr ++ [Event.LoadX509KeyPair config.CertFile config.KeyFile,
          Event.ReadFile config.CARootFile])
        x509.NewCertPool
        (env.ReadFile (tr ++ [Event.LoadX509KeyPair config.CertFile config.KeyFile])
          config.CARootFile).1).1 }, ?_, rfl, rfl, rfl⟩
  simp

/-- An instance with valid credentials. -/
theorem NewForConfig_network_tls_config_witness :
    networkConfig.UnixSocketPath = ""
    ∧ ∃ (history : List Event) (target : String) (tlsConfig : TLSConfig),
      (NewForConfig demoEnv networkConfig []).2 =
        history ++ [Event.Dial target
          (DialOption.WithTransportCredentials (TransportCredentials.NewTLS tlsConfig))]
      ∧ tlsConfig.ServerName = "localhost"
      ∧ tlsConfig.Certificates = [{ chain := [[48, 130]], key := [48, 129] }]
      ∧ tlsConfig.RootCAs = { certs := [[45, 45, 45]] } :=
  ⟨by decide,
   NewForConfig_network_tls_config demoEnv networkConfig [] (by decide) (by decide)
     (by decide) (by decide)⟩

/-- C10: the outcome of the dial decides the result, in either mode.  In Unix-socket
mode the dial is always made; in network mode it is made once the key pair, the CA
root file and the pool have loaded.  If that dial fails with cause `e`, `NewForConfig`
returns no client and an error whose text is "error dialing server: " followed by the
text of `e`; if it succeeds, `NewForConfig` returns a nil error and a client that holds
exactly the connection the dial returned, and no sub-client. -/
theorem NewForConfig_dial_outcome (env : Env) (config : Config) (tr : List Event) :
    (config.UnixSocketPath ≠ "" →
      (∀ e : GoError,
          (env.Dial tr config.UnixSocketPath DialOption.WithInsecure).2 = some e →
          NewForConfig env config tr =
            ((none, some (errors.New ("error dialing server: " ++ e.Error))),
             tr ++ [Event.Dial config.UnixSocketPath DialOption.WithInsecure]))
      ∧ ((env.Dial tr config.UnixSocketPath DialOption.WithInsecure).2 = none →
          NewForConfig env config tr =
            ((some { conn := (env.Dial tr config.UnixSocketPath DialOption.WithInsecure).1
                     versionServiceClient := none
                     outputServiceClient := none }, none),
             tr ++ [Event.Dial config.UnixSocketPath DialOption.WithInsecure])))
    ∧ (config.UnixSocketPath = "" →
      (env.LoadX509KeyPair tr config.CertFile config.KeyFile).2 = none →
      (env.ReadFile (tr ++ [Event.LoadX509KeyPair config.CertFile config.KeyFile])
        config.CARootFile).2 = none →
      (env.AppendCertsFromPEM
        (tr ++ [Event.LoadX509KeyPair config.CertFile config.KeyFile,
          Event.ReadFile config.CARootFile])
        x509.NewCertPool
        (env.ReadFile (tr ++ [Event.LoadX509KeyPair config.CertFile config.KeyFile])
          config.CARootFile).1).2 = true →
      (∀ e : GoError,
          (env.Dial
            (tr ++ [Event.LoadX509KeyPair config.CertFile config.KeyFile,
              Event.ReadFile config.CARootFile,
              Event.AppendCertsFromPEM
                (env.ReadFile (tr ++ [Event.LoadX509KeyPair config.CertFile config.KeyFile])
                  config.CARootFile).1])
            (config.Hostname ++ ":" ++ Nat.repr config.Port)
            (DialOption.WithTransportCredentials (TransportCredentials.NewTLS
              { ServerName := config.Hostname
                Certificates :=
                  [(env.LoadX509KeyPair tr config.CertFile config.KeyFile).1]
                RootCAs := (env.AppendCertsFromPEM
                  (tr ++ [Event.LoadX509KeyPair config.CertFile config.KeyFile,
                    Event.ReadFile config.CARootFile])
                  x509.NewCertPool
                  (env.ReadFile
                    (tr ++ [Event.LoadX509KeyPair config.CertFile config.KeyFile])
                    config.CARootFile).1).1 }))).2 = some e →
          NewForConfig env config tr =
            ((none, some (errors.New ("error dialing server: " ++ e.Error))),
             tr ++ [Event.LoadX509KeyPair config.CertFile config.KeyFile,
               Event.ReadFile config.CARootFile,
               Event.AppendCertsFromPEM
                 (env.ReadFile (tr ++ [Event.LoadX509KeyPair config.CertFile config.KeyFile])
                   config.CARootFile).1,
               Event.Dial (config.Hostname ++ ":" ++ Nat.repr config.Port)
                 (DialOption.WithTransportCredentials (TransportCredentials.NewTLS
                 { ServerName := config.Hostname
                   Certificates :=
                     [(env.LoadX509KeyPair tr config.CertFile config.KeyFile).1]
                   RootCAs := (env.AppendCertsFromPEM
                     (tr ++ [Event.LoadX509KeyPair config.CertFile config.KeyFile,
                       Event.ReadFile config.CARootFile])
                     x509.NewCertPool
                     (env.ReadFile
                       (tr ++ [Event.LoadX509KeyPair config.CertFile config.KeyFile])
                       config.CARootFile).1).1 }))]))
      ∧ ((env.Dial
            (tr ++ [Event.LoadX509KeyPair config.CertFile config.KeyFile,
              Event.ReadFile config.CARootFile,
              Event.AppendCertsFromPEM
                (env.ReadFile (tr ++ [Event.LoadX509KeyPair config.CertFile config.KeyFile])
                  config.CARootFile).1])
            (config.Hostname ++ ":" ++ Nat.repr config.Port)
            (DialOption.WithTransportCredentials (TransportCredentials.NewTLS
              { ServerName := config.Hostname
                Certificates :=
                  [(env.LoadX509KeyPair tr config.CertFile config.KeyFile).1]
                RootCAs := (env.AppendCertsFromPEM
                  (tr ++ [Event.LoadX509KeyPair config.CertFile config.KeyFile,
                    Event.ReadFile config.CARootFile])
                  x509.NewCertPool
                  (env.ReadFile
                    (tr ++ [Event.LoadX509KeyPair config.CertFile config.KeyFile])
                    config.CARootFile).1).1 }))).2 = none →
          NewForConfig env config tr =
            ((some { conn := (env.Dial
                      (tr ++ [Event.LoadX509KeyPair config.CertFile config.KeyFile,
                        Event.ReadFile config.CARootFile,
                        Event.AppendCertsFromPEM
                          (env.ReadFile
                            (tr ++ [Event.LoadX509KeyPair config.CertFile config.KeyFile])
                            config.CARootFile).1])
                      (config.Hostname ++ ":" ++ Nat.repr config.Port)
                      (DialOption.WithTransportCredentials (TransportCredentials.NewTLS
                        { ServerName := config.Hostname
                          Certificates :=
                            [(env.LoadX509KeyPair tr config.CertFile config.KeyFile).1]
                          RootCAs := (env.AppendCertsFromPEM
                            (tr ++ [Event.LoadX509KeyPair config.CertFile config.KeyFile,
                              Event.ReadFile config.CARootFile])
                            x509.NewCertPool
                            (env.ReadFile
                              (tr ++
                                [Event.LoadX509KeyPair config.CertFile config.KeyFile])
                              config.CARootFile).1).1 }))).1
                     versionServiceClient := none
                     outputServiceClient := none }, none),
             tr ++ [Event.LoadX509KeyPair config.CertFile config.KeyFile,
               Event.ReadFile config.CARootFile,
               Event.AppendCertsFromPEM
                 (env.ReadFile (tr ++ [Event.LoadX509KeyPair config.CertFile config.KeyFile])
                   config.CARootFile).1,
               Event.Dial (config.Hostname ++ ":" ++ Nat.repr config.Port)
                 (DialOption.WithTransportCredentials (TransportCredentials.NewTLS
                 { ServerName := config.Hostname
                   Certificates :=
                     [(env.LoadX509KeyPair tr config.CertFile config.KeyFile).1]
                   RootCAs := (env.AppendCertsFromPEM
                     (tr ++ [Event.LoadX509KeyPair config.CertFile config.KeyFile,
                       Event.ReadFile config.CARootFile])
                     x509.NewCertPool
                     (env.ReadFile
                       (tr ++ [Event.LoadX509KeyPair config.CertFile config.KeyFile])
                       config.CARootFile).1).1 }))]))) := by
  refine ⟨?_, ?_⟩
  · intro hpath
    rw [NewForConfig_unix env config tr hpath, newUnixSocketClient_eq]
    rcases env.Dial tr config.UnixSocketPath DialOption.WithInsecure with ⟨conn, _ | e0⟩
    · exact ⟨fun e h => by simp at h, fun _ => rfl⟩
    · refine ⟨fun e h => ?_, fun h => by simp at h⟩
      simp only [Option.some.injEq] at h
      subst h
      rfl
  · intro hpath hload hread happend
    rw [NewForConfig_network env config tr hpath,
      newNetworkClient_success env config tr hload hread happend]
    rcases env.Dial _ _ _ with ⟨conn, _ | e0⟩
    · exact ⟨fun e h => by simp at h, fun _ => rfl⟩
    · refine ⟨fun e h => ?_, fun h => by simp at h⟩
      simp only [Option.some.injEq] at h
      subst h
      rfl

/-- Four instances: in Unix-socket mode and in network mode, a dial that succeeds and
a dial that fails. -/
theorem NewForConfig_dial_outcome_witness :
    (unixConfig.UnixSocketPath ≠ ""
      ∧ NewForConfig demoEnv unixConfig [] =
          ((some { conn := some { ref := 1 }
                   versionServiceClient := none
                   outputServiceClient := none }, none),
           [Event.Dial "/tmp/falco.sock" DialOption.WithInsecure]))
    ∧ (unixDownConfig.UnixSocketPath ≠ ""
      ∧ NewForConfig demoEnv unixDownConfig [] =
          ((none, some (errors.New "error dialing server: context deadline exceeded")),
           [Event.Dial "/tmp/down.sock" DialOption.WithInsecure]))
    ∧ (networkConfig.UnixSocketPath = ""
      ∧ NewForConfig demoEnv networkConfig [] =
          ((some { conn := some { ref := 1 }
                   versionServiceClient := none
                   outputServiceClient := none }, none),
           [Event.LoadX509KeyPair "client.crt" "client.key", Event.ReadFile "ca.crt",
             Event.AppendCertsFromPEM [45, 45, 45],
             Event.Dial "localhost:5060"
               (DialOption.WithTransportCredentials
                 (TransportCredentials.NewTLS (networkTLS "localhost")))]))
    ∧ (networkDownConfig.UnixSocketPath = ""
      ∧ NewForConfig demoEnv networkDownConfig [] =
          ((none, some (errors.New "error dialing server: context deadline exceeded")),
           [Event.LoadX509KeyPair "client.crt" "client.key", Event.ReadFile "ca.crt",
             Event.AppendCertsFromPEM [45, 45, 45],
             Event.Dial "down.example:5060"
               (DialOption.WithTransportCredentials
                 (TransportCredentials.NewTLS (networkTLS "down.example")))])) :=
  ⟨⟨by decide,
    ((NewForConfig_dial_outcome demoEnv unixConfig []).1 (by decide)).2 (by decide)⟩,
   ⟨by decide,
    ((NewForConfig_dial_outcome demoEnv unixDownConfig []).1 (by decide)).1
      deadlineExceeded (by decide)⟩,
   ⟨by decide,
    ((NewForConfig_dial_outcome demoEnv networkConfig []).2 (by decide) (by decide)
      (by decide) (by decide)).2 (by decide)⟩,
   ⟨by decide,
    ((NewForConfig_dial_outcome demoEnv networkDownConfig []).2 (by decide) (by decide)
      (by decide) (by decide)).1 deadlineExceeded (by decide)⟩⟩

/-! ## Client operations -/

theorem checkConn_nil (c : Client) (hconn : c.conn = none) :
    c.checkConn = some (errors.New "missing connection for the current client") := by
  simp [Client.checkConn, hconn, Errorf_missingConn]

theorem checkConn_connected (c : Client) (hconn : c.conn ≠ none) : c.checkConn = none := by
  simp [Client.checkConn, hconn]

theorem Close_connected (env : Env) (c : Client) (tr : List Event) (conn : ClientConn)
    (hconn : c.conn = some conn) :
    c.Close env tr = (.ok (env.ConnClose tr conn), c, tr ++ [Event.ConnClose conn]) := by
  have h : c.checkConn = none := checkConn_connected c (by simp [hconn])
  simp [Client.Close, h, hconn, ClientConn.Close]

theorem Output_connected (env : Env) (c : Client) (tr : List Event) (hconn : c.conn ≠ none) :
    c.Output env tr =
      match c.outputServiceClient with
      | some sc => ((some sc, none), c, tr)
      | none =>
        ((some (env.NewOutputServiceClient tr c.conn), none),
         { c with outputServiceClient := some (env.NewOutputServiceClient tr c.conn) },
         tr ++ [Event.NewOutputServiceClient c.conn]) := by
  have h : c.checkConn = none := checkConn_connected c hconn
  rcases hm : c.outputServiceClient with _ | sc
  · simp [Client.Output, h, hm, output.NewServiceClient]
  · simp [Client.Output, h, hm]

theorem Version_connected (env : Env) (c : Client) (tr : List Event) (hconn : c.conn ≠ none) :
    c.Version env tr =
      match c.versionServiceClient with
      | some sc => ((some sc, none), c, tr)
      | none =>
        ((some (env.NewVersionServiceClient tr c.conn), none),
         { c with versionServiceClient := some (env.NewVersionServiceClient tr c.conn) },
         tr ++ [Event.NewVersionServiceClient c.conn]) := by
  have h : c.checkConn = none := checkConn_connected c hconn
  rcases hm : c.versionServiceClient with _ | sc
  · simp [Client.Version, h, hm, version.NewServiceClient]
  · simp [Client.Version, h, hm]

/-- In the concrete world two calls of the stub constructor yield two instances: what
`Output` returns twice is one instance only because the first is kept. -/
theorem demoEnv_constructor_fresh :
    (output.NewServiceClient demoEnv (some { ref := 1 })
        (output.NewServiceClient demoEnv (some { ref := 1 }) []).2).1 ≠
      (output.NewServiceClient demoEnv (some { ref := 1 }) []).1 := by
  decide

/-- C2: on a client whose connection is nil, `Version`, `Output` and `Close` each
return the error "missing connection for the current client"; `Version` and `Output`
return no sub-client; `Close` returns normally, so the nil connection is not
dereferenced; and neither the client nor the trace changes: no stub is constructed and
no library is called. -/
theorem nil_connection_fails_fast (env : Env) (c : Client) (tr : List Event)
    (hconn : c.conn = none) :
    c.Version env tr =
        ((none, some (errors.New "missing connection for the current client")), c, tr)
    ∧ c.Output env tr =
        ((none, some (errors.New "missing connection for the current client")), c, tr)
    ∧ c.Close env tr =
        (.ok (some (errors.New "missing connection for the current client")), c, tr) := by
  have h := checkConn_nil c hconn
  refine ⟨?_, ?_, ?_⟩
  · simp [Client.Version, h]
  · simp [Client.Output, h]
  · simp [Client.Close, h]

/-- An instance on the zero value `Client{}`. -/
theorem nil_connection_fails_fast_witness :
    neverOpened.conn = none
    ∧ neverOpened.Version demoEnv [] =
        ((none, some (errors.New "missing connection for the current client")), neverOpened, [])
    ∧ neverOpened.Output demoEnv [] =
        ((none, some (errors.New "missing connection for the current client")), neverOpened, [])
    ∧ neverOpened.Close demoEnv [] =
        (.ok (some (errors.New "missing connection for the current client")), neverOpened, []) :=
  ⟨by decide, nil_connection_fails_fast demoEnv neverOpened [] (by decide)⟩

/-- C3: on a connected client, `Output` returns a sub-client and a nil error; calling
it again returns the same instance and changes neither the client nor the trace; the
first call invokes the stub constructor once if the memoized field was empty and not at
all otherwise, so over the two calls the constructor runs at most once.  The same holds
for `Version` with its own field. -/
theorem sub_clients_memoized (env : Env) (c : Client) (tr : List Event)
    (hconn : c.conn ≠ none) :
    (∃ sc : OutputServiceClient,
        (c.Output env tr).1 = (some sc, none)
        ∧ (c.Output env tr).2.1.Output env (c.Output env tr).2.2 =
            ((some sc, none), (c.Output env tr).2.1, (c.Output env tr).2.2)
        ∧ (c.Output env tr).2.2 =
            tr ++
              (if c.outputServiceClient = none then [Event.NewOutputServiceClient c.conn]
               else []))
    ∧ (∃ sc : VersionServiceClient,
        (c.Version env tr).1 = (some sc, none)
        ∧ (c.Version env tr).2.1.Version env (c.Version env tr).2.2 =
            ((some sc, none), (c.Version env tr).2.1, (c.Version env tr).2.2)
        ∧ (c.Version env tr).2.2 =
            tr ++
              (if c.versionServiceClient = none then [Event.NewVersionServiceClient c.conn]
               else [])) := by
  constructor
  · rw [Output_connected env c tr hconn]
    rcases hm : c.outputServiceClient with _ | sc
    · refine ⟨env.NewOutputServiceClient tr c.conn, rfl, ?_, by simp⟩
      rw [Output_connected _ _ _ (by simpa using hconn)]
    · refine ⟨sc, rfl, ?_, by simp⟩
      simp only
      rw [Output_connected env c tr hconn, hm]
  · rw [Version_connected env c tr hconn]
    rcases hm : c.versionServiceClient with _ | sc
    · refine ⟨env.NewVersionServiceClient tr c.conn, rfl, ?_, by simp⟩
      rw [Version_connected _ _ _ (by simpa using hconn)]
    · refine ⟨sc, rfl, ?_, by simp⟩
      simp only
      rw [Version_connected env c tr hconn, hm]

/-- An instance on a freshly connected client: both calls of `Output` return the
instance built by the first. -/
theorem sub_clients_memoized_witness :
    connectedClient.conn ≠ none
    ∧ (connectedClient.Output demoEnv []).1 = (some { ref := 0 }, none)
    ∧ ((connectedClient.Output demoEnv []).2.1.Output demoEnv
          (connectedClient.Output demoEnv []).2.2).1 = (some { ref := 0 }, none)
    ∧ ((∃ sc : OutputServiceClient,
        (connectedClient.Output demoEnv []).1 = (some sc, none)
        ∧ (connectedClient.Output demoEnv []).2.1.Output demoEnv
              (connectedClient.Output demoEnv []).2.2 =
            ((some sc, none), (connectedClient.Output demoEnv []).2.1,
              (connectedClient.Output demoEnv []).2.2)
        ∧ (connectedClient.Output demoEnv []).2.2 =
            [] ++
              (if connectedClient.outputServiceClient = none then
                [Event.NewOutputServiceClient connectedClient.conn]
               else []))
      ∧ (∃ sc : VersionServiceClient,
        (connectedClient.Version demoEnv []).1 = (some sc, none)
        ∧ (connectedClient.Version demoEnv []).2.1.Version demoEnv
              (connectedClient.Version demoEnv []).2.2 =
            ((some sc, none), (connectedClient.Version demoEnv []).2.1,
              (connectedClient.Version demoEnv []).2.2)
        ∧ (connectedClient.Version demoEnv []).2.2 =
            [] ++
              (if connectedClient.versionServiceClient = none then
                [Event.NewVersionServiceClient connectedClient.conn]
               else []))) :=
  ⟨by decide, by decide, by decide, sub_clients_memoized demoEnv connectedClient [] (by decide)⟩

/-- C8: on a connected client, `Close` calls the close of the transport connection
exactly once and returns exactly what that call returns, nil or the very same error
value; the client itself is left as it was. -/
theorem Close_delegates_to_connection (env : Env) (c : Client) (tr : List Event)
    (conn : ClientConn) (hconn : c.conn = some conn) :
    c.Close env tr = (.ok (env.ConnClose tr conn), c, tr ++ [Event.ConnClose conn]) :=
  Close_connected env c tr conn hconn

/-- An instance where the connection was closed before: the error of the transport
comes back as it is. -/
theorem Close_delegates_to_connection_witness :
    connectedClient.conn = some { ref := 1 }
    ∧ connectedClient.Close demoEnv [Event.ConnClose { ref := 1 }] =
        (.ok (some ErrClientConnClosing), connectedClient,
         [Event.ConnClose { ref := 1 }, Event.ConnClose { ref := 1 }]) :=
  ⟨by decide,
   Close_delegates_to_connection demoEnv connectedClient [Event.ConnClose { ref := 1 }]
     { ref := 1 } (by decide)⟩

/-- C7 (as stated, refuted): a connected client is closed and the close succeeds.  The
client is then not in a closed state: `Version` and `Output` return a sub-client and a
nil error, not the not-connected error, and a second `Close` calls the close of the
transport connection a second time and returns that call's error, not the
not-connected error. -/
theorem closed_client_still_connected :
    connectedClient.conn ≠ none
    ∧ (connectedClient.Close demoEnv []).1 = .ok none
    ∧ ((connectedClient.Close demoEnv []).2.1.Version demoEnv
          (connectedClient.Close demoEnv []).2.2).1 = (some { ref := 1 }, none)
    ∧ ((connectedClient.Close demoEnv []).2.1.Version demoEnv
          (connectedClient.Close demoEnv []).2.2).1 ≠
        (none, some (errors.New "missing connection for the current client"))
    ∧ ((connectedClient.Close demoEnv []).2.1.Output demoEnv
          (connectedClient.Close demoEnv []).2.2).1 = (some { ref := 1 }, none)
    ∧ ((connectedClient.Close demoEnv []).2.1.Output demoEnv
          (connectedClient.Close demoEnv []).2.2).1 ≠
        (none, some (errors.New "missing connection for the current client"))
    ∧ (connectedClient.Close demoEnv []).2.1.Close demoEnv
          (connectedClient.Close demoEnv []).2.2 =
        (.ok (some ErrClientConnClosing), connectedClient,
         [Event.ConnClose { ref := 1 }, Event.ConnClose { ref := 1 }])
    ∧ ((connectedClient.Close demoEnv []).2.1.Close demoEnv
          (connectedClient.Close demoEnv []).2.2).1 ≠
        .ok (some (errors.New "missing connection for the current client")) :=
  ⟨by decide, rfl, by decide, by decide, by decide, by decide, rfl,
   fun h => absurd (Except.ok.inj h) (by decide)⟩

/-- C7 (amended): `Close` on a connected client, whatever the transport returns,
leaves the client as it was, connection included.  Afterwards `Version` and `Output`
still return a sub-client and a nil error, and a second `Close` calls the close of the
transport connection again and returns what that second call returns. -/
theorem Close_leaves_client_connected (env : Env) (c : Client) (tr : List Event)
    (conn : ClientConn) (hconn : c.conn = some conn) :
    (c.Close env tr).2.1 = c
    ∧ (∃ sc : VersionServiceClient,
        ((c.Close env tr).2.1.Version env (c.Close env tr).2.2).1 = (some sc, none))
    ∧ (∃ sc : OutputServiceClient,
        ((c.Close env tr).2.1.Output env (c.Close env tr).2.2).1 = (some sc, none))
    ∧ (c.Close env tr).2.1.Close env (c.Close env tr).2.2 =
        (.ok (env.ConnClose (tr ++ [Event.ConnClose conn]) conn), c,
         tr ++ [Event.ConnClose conn, Event.ConnClose conn]) := by
  have hne : c.conn ≠ none := by simp [hconn]
  rw [Close_connected env c tr conn hconn]
  refine ⟨rfl, ?_, ?_, ?_⟩
  · simp only
    rw [Version_connected env c _ hne]
    rcases c.versionServiceClient with _ | sc
    · exact ⟨_, rfl⟩
    · exact ⟨sc, rfl⟩
  · simp only
    rw [Output_connected env c _ hne]
    rcases c.outputServiceClient with _ | sc
    · exact ⟨_, rfl⟩
    · exact ⟨sc, rfl⟩
  · simp only
    rw [Close_connected env c _ conn hconn]
    simp

/-- An instance on a freshly connected client. -/
theorem Close_leaves_client_connected_witness :
    connectedClient.conn = some { ref := 1 }
    ∧ (connectedClient.Close demoEnv []).2.1 = connectedClient
    ∧ (∃ sc : VersionServiceClient,
        ((connectedClient.Close demoEnv []).2.1.Version demoEnv
          (connectedClient.Close demoEnv []).2.2).1 = (some sc, none))
    ∧ (∃ sc : OutputServiceClient,
        ((connectedClient.Close demoEnv []).2.1.Output demoEnv
          (connectedClient.Close demoEnv []).2.2).1 = (some sc, none))
    ∧ (connectedClient.Close demoEnv []).2.1.Close demoEnv
          (connectedClient.Close demoEnv []).2.2 =
        (.ok (demoEnv.ConnClose ([] ++ [Event.ConnClose { ref := 1 }]) { ref := 1 }),
         connectedClient,
         [] ++ [Event.ConnClose { ref := 1 }, Event.ConnClose { ref := 1 }]) :=
  ⟨by decide, Close_leaves_client_connected demoEnv connectedClient [] { ref := 1 } (by decide)⟩

end client
